import Mathlib

/-
  Verification of the proxyconfig reconciliation controller
  (pkg/controller/proxyconfig/controller.go).

  The controller is embedded shallowly:
    * Kubernetes objects become plain Lean structures,
    * the external object store becomes a record of fetch results for the
      fixed identities the controller reads, plus injectable write errors,
    * each controller function becomes a Lean function returning the list
      of externally visible effects (Create/Update writes, health-status
      writes, and the calls the claims talk about) together with its
      result and the resulting store.

  Functions of the proxyconfig package that are not part of the provided
  source (ValidateProxyConfig, validateTrustedCA, validateSystemTrustBundle,
  validateTrustBundle, syncProxyStatus) are modelled from the spec; their
  doc comments say so explicitly.  PEM validation is an external primitive
  (out of scope per the spec) and is a parameter of the model.
-/

namespace ProxyConfig

/-- A Kubernetes ConfigMap as the controller sees it: a name, a namespace and
a string-to-string data map (an association list; a missing key reads as the
empty string, matching Go map indexing). -/
structure ConfigMap where
  name : String
  ns : String
  data : List (String × String)
deriving DecidableEq

/-- Go map indexing `cm.Data[key]`: the value at `key`, or the zero value ""
when the key is absent (or the map is nil). -/
def ConfigMap.getData (cm : ConfigMap) (key : String) : String :=
  (cm.data.lookup key).getD ""

/-- The zero value `corev1.ConfigMap{}`: what `currentCfgMap` holds when a
`Get` into it did not succeed. -/
def ConfigMap.zero : ConfigMap := ⟨"", "", []⟩

/-- The proxy specification (configv1.ProxySpec).  `trustedCAName` is the
name held by the `trustedCA` ConfigMapNameReference; its Go zero value is the
empty string, and the code treats emptiness as "unset". -/
structure ProxySpec where
  httpProxy : String
  httpsProxy : String
  noProxy : String
  readinessEndpoints : List String
  trustedCAName : String
deriving DecidableEq

/-- A reconcile request: an object identity, namespace plus name. -/
structure Request where
  ns : String
  name : String
deriving DecidableEq

/-- The outcome of a `Get` from the external store: the object, not-found, or
some other fetch error. -/
inductive FetchResult (α : Type) where
  | found (a : α)
  | notFound
  | fetchError (msg : String)
deriving DecidableEq

/-- Well-known names (package `names`), as fixed by the source's doc comments:
the additional trust bundle namespace. -/
def ADDL_TRUST_BUNDLE_CONFIGMAP_NS : String := "openshift-config"

/-- Name of the derived trust-bundle ConfigMap. -/
def TRUSTED_CA_BUNDLE_CONFIGMAP : String := "trusted-ca-bundle"

/-- Namespace of the derived trust-bundle ConfigMap. -/
def TRUSTED_CA_BUNDLE_CONFIGMAP_NS : String := "openshift-config-managed"

/-- The single well-known data key of the derived trust-bundle ConfigMap. -/
def TRUSTED_CA_BUNDLE_CONFIGMAP_KEY : String := "ca-bundle.crt"

/-- Name of the singleton proxy object. -/
def PROXY_CONFIG : String := "cluster"

/-- The singleton proxy identity `names.Proxy()`: cluster-scoped, so its
namespace is empty. -/
def proxyRequest : Request := ⟨"", PROXY_CONFIG⟩

/-- The external store, as the fixed set of reads the controller performs and
injectable outcomes for its writes.  `cmGet ns name` serves ConfigMap reads in
namespaces other than the managed one; `derivedGet` serves the read of the
derived artifact at its fixed identity (namespace "openshift-config-managed",
disjoint from the namespaces `cmGet` is consulted for).  `infraGet`, `netGet`
and `clusterCfgGet` are the reads of the three config objects used only by the
status side task; only success or failure of those reads matters, so they are
`Option String` (an error message, or `none` for success), and likewise the
outcomes of Create, Update and the status sync. -/
structure Store where
  proxyGet : FetchResult ProxySpec
  cmGet : String → String → FetchResult ConfigMap
  derivedGet : FetchResult ConfigMap
  infraGet : Option String
  netGet : Option String
  clusterCfgGet : Option String
  systemBundleRead : Except String String
  createErr : Option String
  updateErr : Option String
  syncStatusErr : Option String

/-- Externally visible actions of one invocation: store writes, health-status
writes, and the two internal calls the claims quantify over (the proxy-spec
validator invocation and the generateSystemTrustBundle invocation), plus the
hand-off of a candidate bundle to the sync stage.  Degraded-status messages
are elided; the stable reason code is kept. -/
inductive Effect where
  | createCM (cm : ConfigMap)
  | updateCM (cm : ConfigMap)
  | setDegraded (reason : String)
  | setNotDegraded
  | validateCall
  | genSystemCall
  | syncWith (cm : ConfigMap)
deriving DecidableEq

/-- Result of running `syncTrustedCABundle`: its effects, its returned error
if any, and the store after its writes. -/
structure SyncResult where
  effects : List Effect
  result : Except String Unit
  store : Store

/-- Result of running `Reconcile`: effects, returned error if any, the store
after any writes, and the candidate ConfigMap passed to the sync stage
(`none` when the invocation never reached sync). -/
structure RunResult where
  effects : List Effect
  result : Except String Unit
  store : Store
  synced : Option ConfigMap

/-- The model environment: the two validation primitives the controller calls
but that are outside the provided source.  `pemValid` is the PEM validator
(out of scope for the spec, a leaf primitive); `validateProxyCfg` is
`ValidateProxyConfig`, the proxy-spec validator. -/
structure Env where
  pemValid : String → Bool
  validateProxyCfg : ProxySpec → Except String Unit

/-- isSpecHTTPProxySet returns true if spec.httpProxy of proxyConfig is set. -/
def isSpecHTTPProxySet (proxyConfig : ProxySpec) : Bool :=
  0 < proxyConfig.httpProxy.length

/-- isSpecHTTPSProxySet returns true if spec.httpsProxy of proxyConfig is set. -/
def isSpecHTTPSProxySet (proxyConfig : ProxySpec) : Bool :=
  0 < proxyConfig.httpsProxy.length

/-- isSpecNoProxySet returns true if spec.noProxy of proxyConfig is set. -/
def isSpecNoProxySet (proxyConfig : ProxySpec) : Bool :=
  0 < proxyConfig.noProxy.length

/-- isSpecReadinessEndpointsSet returns true if spec.readinessEndpoints of
proxyConfig is set. -/
def isSpecReadinessEndpointsSet (proxyConfig : ProxySpec) : Bool :=
  0 < proxyConfig.readinessEndpoints.length

/-- isSpecTrustedCASet returns true if spec.trustedCA of proxyConfig is set. -/
def isSpecTrustedCASet (proxyConfig : ProxySpec) : Bool :=
  0 < proxyConfig.trustedCAName.length

/-- configMapsEqual compares the data key values between a and b ConfigMaps,
returning true if they are equal. -/
def configMapsEqual (key : String) (a b : ConfigMap) : Bool :=
  a.getData key == b.getData key

/-- Modelled from the spec: `validateSystemTrustBundle` (proxyconfig package,
not among the provided sources) reads the system trust bundle from its fixed
local path and validates it as well-formed PEM, returning the raw bytes. -/
def validateSystemTrustBundle (env : Env) (st : Store) : Except String String :=
  match st.systemBundleRead with
  | .error e => .error ("failed to read system trust bundle: " ++ e)
  | .ok bundleData =>
    if env.pemValid bundleData then .ok bundleData
    else .error "invalid system trust bundle"

/-- Modelled from the spec: `validateTrustedCA` (proxyconfig package, not
among the provided sources) fetches the source ConfigMap named by trustedCA
from the additional-trust-bundle namespace, extracts its data value as the
additional bundle, validates it as PEM, reads and validates the system
bundle, and returns the pair (additional bytes, system bytes).  Fetch
failures and validation failures are both fatal for the invocation. -/
def validateTrustedCA (env : Env) (st : Store) (caName : String) :
    Except String (String × String) :=
  match st.cmGet ADDL_TRUST_BUNDLE_CONFIGMAP_NS caName with
  | .notFound => .error ("failed to get trustedCA configmap " ++ caName)
  | .fetchError e => .error ("failed to get trustedCA configmap: " ++ e)
  | .found cm =>
    let additionalData := cm.getData TRUSTED_CA_BUNDLE_CONFIGMAP_KEY
    if env.pemValid additionalData then
      match validateSystemTrustBundle env st with
      | .error e => .error e
      | .ok systemData => .ok (additionalData, systemData)
    else .error "invalid additional trust bundle"

/-- mergeTrustBundlesToConfigMap merges the additionalData with systemData
into a single byte slice, ensures the merged byte slice contains valid PEM
encoded certificates (via validateTrustBundle, modelled by `pemValid` on the
embedded data value), embeds the merged byte slice into a ConfigMap named
"trusted-ca-bundle" in namespace "openshift-config-managed" and returns the
ConfigMap. -/
def mergeTrustBundlesToConfigMap (env : Env) (additionalData systemData : String) :
    Except String ConfigMap :=
  if additionalData.length = 0 then
    .error "failed to merge ca bundles, additional trust bundle is empty"
  else if systemData.length = 0 then
    .error "failed to merge ca bundles, system trust bundle is empty"
  else
    let combinedTrustData := additionalData ++ systemData
    let mergedCfgMap : ConfigMap :=
      ⟨TRUSTED_CA_BUNDLE_CONFIGMAP, TRUSTED_CA_BUNDLE_CONFIGMAP_NS,
        [(TRUSTED_CA_BUNDLE_CONFIGMAP_KEY, combinedTrustData)]⟩
    if env.pemValid (mergedCfgMap.getData TRUSTED_CA_BUNDLE_CONFIGMAP_KEY) then
      .ok mergedCfgMap
    else
      .error "failed to validate merged configmap"

/-- generateSystemTrustBundle creates a ConfigMap object named
"trusted-ca-bundle" in namespace "openshift-config-managed" whose data key
"ca-bundle.crt" contains a validated system trust bundle. -/
def generateSystemTrustBundle (env : Env) (st : Store) : Except String ConfigMap :=
  match validateSystemTrustBundle env st with
  | .error e => .error ("failed to validate trust bundle: " ++ e)
  | .ok bundleData =>
    .ok ⟨TRUSTED_CA_BUNDLE_CONFIGMAP, TRUSTED_CA_BUNDLE_CONFIGMAP_NS,
      [(TRUSTED_CA_BUNDLE_CONFIGMAP_KEY, bundleData)]⟩

/-- configMapIsProxyTrustedCA returns an error if cfgMapName does not match
the ConfigMap name referenced by proxy "cluster" trustedCA (fetching the
proxy first; any fetch failure is an error). -/
def configMapIsProxyTrustedCA (st : Store) (cfgMapName : String) :
    Except String Unit :=
  match st.proxyGet with
  | .notFound => .error "failed to get proxy"
  | .fetchError e => .error ("failed to get proxy: " ++ e)
  | .found proxySpec =>
    if proxySpec.trustedCAName != cfgMapName then
      .error "configmap name does not match proxy trustedCA name"
    else
      .ok ()

/-- syncTrustedCABundle checks if the ConfigMap named "trusted-ca-bundle" in
namespace "openshift-config-managed" exists, creating trustedCABundle if it
does not exist, and then (exactly as the source control flow does, with no
early return after the Create) compares the data key values between the
fetched `currentCfgMap` - which on the not-found path is still the zero-value
ConfigMap - and trustedCABundle, updating trustedCABundle if the values
differ. -/
def syncTrustedCABundle (st : Store) (trustedCABundle : ConfigMap) : SyncResult :=
  match st.derivedGet with
  | .fetchError e =>
    ⟨[], .error ("failed to get trusted CA bundle configmap: " ++ e), st⟩
  | .notFound =>
    match st.createErr with
    | some e =>
      ⟨[.createCM trustedCABundle],
        .error ("failed to create trusted CA bundle configmap: " ++ e), st⟩
    | none =>
      if configMapsEqual TRUSTED_CA_BUNDLE_CONFIGMAP_KEY ConfigMap.zero trustedCABundle then
        ⟨[.createCM trustedCABundle], .ok (),
          { st with derivedGet := .found trustedCABundle }⟩
      else
        match st.updateErr with
        | some e =>
          ⟨[.createCM trustedCABundle, .updateCM trustedCABundle],
            .error ("failed to update trusted CA bundle configmap: " ++ e),
            { st with derivedGet := .found trustedCABundle }⟩
        | none =>
          ⟨[.createCM trustedCABundle, .updateCM trustedCABundle], .ok (),
            { st with derivedGet := .found trustedCABundle }⟩
  | .found currentCfgMap =>
    if configMapsEqual TRUSTED_CA_BUNDLE_CONFIGMAP_KEY currentCfgMap trustedCABundle then
      ⟨[], .ok (), st⟩
    else
      match st.updateErr with
      | some e =>
        ⟨[.updateCM trustedCABundle],
          .error ("failed to update trusted CA bundle configmap: " ++ e), st⟩
      | none =>
        ⟨[.updateCM trustedCABundle], .ok (),
          { st with derivedGet := .found trustedCABundle }⟩

/-- The resolve step shared (textually duplicated, with identical reason
codes) by both trigger branches of Reconcile: when trustedCA is unset,
generate the system-only bundle (reporting GenerateConfigMapFailure on
failure); when set, validate the trustedCA reference (InvalidProxyConfig on
failure) and merge the two bundles (ProxyCAMergeFailure on failure).  The
`genSystemCall` effect records that generateSystemTrustBundle was invoked. -/
def resolveTrustBundle (env : Env) (st : Store) (p : ProxySpec) :
    List Effect × Except String ConfigMap :=
  if !isSpecTrustedCASet p then
    match generateSystemTrustBundle env st with
    | .error e =>
      ([.genSystemCall, .setDegraded "GenerateConfigMapFailure"],
        .error ("failed to generate system trust bundle configmap: " ++ e))
    | .ok trustBundle => ([.genSystemCall], .ok trustBundle)
  else
    match validateTrustedCA env st p.trustedCAName with
    | .error e =>
      ([.setDegraded "InvalidProxyConfig"],
        .error ("failed to validate trustedCA for proxy: " ++ e))
    | .ok pd =>
      match mergeTrustBundlesToConfigMap env pd.1 pd.2 with
      | .error e =>
        ([.setDegraded "ProxyCAMergeFailure"],
          .error ("failed to merge trustedCA and system bundles: " ++ e))
      | .ok trustBundle => ([], .ok trustBundle)

/-- The validate-then-resolve step shared by both trigger branches: the
`validate` flag starts true and is cleared when httpProxy, httpsProxy and
noProxy are all unset; when the flag is set, ValidateProxyConfig is invoked
(recorded by the `validateCall` effect) and a failure reports
InvalidProxyConfig and aborts; then the trust bundle is resolved. -/
def validateAndResolve (env : Env) (st : Store) (p : ProxySpec) :
    List Effect × Except String ConfigMap :=
  if isSpecHTTPProxySet p || isSpecHTTPSProxySet p || isSpecNoProxySet p then
    match env.validateProxyCfg p with
    | .error e =>
      ([.validateCall, .setDegraded "InvalidProxyConfig"],
        .error ("failed to validate proxy: " ++ e))
    | .ok _ =>
      match resolveTrustBundle env st p with
      | (es, r) => (.validateCall :: es, r)
  else
    resolveTrustBundle env st p

/-- The shared tail of Reconcile (after the switch): sync the candidate trust
bundle configmap with the api server, reporting TrustBundleSyncFailure and
returning an error when the sync fails, and setting not-degraded on success.
`eff` is the effect list accumulated by the branch so far. -/
def finishSync (st : Store) (eff : List Effect) (trustBundle : ConfigMap) : RunResult :=
  match syncTrustedCABundle st trustBundle with
  | ⟨es, .error e, st2⟩ =>
    ⟨eff ++ [.syncWith trustBundle] ++ es ++ [.setDegraded "TrustBundleSyncFailure"],
      .error ("failed to sync additional trust bundle configmap: " ++ e),
      st2, some trustBundle⟩
  | ⟨es, .ok _, st2⟩ =>
    ⟨eff ++ [.syncWith trustBundle] ++ es ++ [.setNotDegraded],
      .ok (), st2, some trustBundle⟩

/-- The proxy-identity branch of Reconcile: fetch the proxy (not-found is a
benign no-op, other fetch errors are returned without a health write),
validate and resolve, fetch the infrastructure, network and cluster config
objects, sync the proxy status, then fall through to the trust-bundle sync. -/
def reconcileProxyPath (env : Env) (st : Store) : RunResult :=
  match st.proxyGet with
  | .notFound => ⟨[], .ok (), st, none⟩
  | .fetchError e => ⟨[], .error ("failed to get proxy: " ++ e), st, none⟩
  | .found p =>
    match validateAndResolve env st p with
    | (eff, .error e) => ⟨eff, .error e, st, none⟩
    | (eff, .ok trustBundle) =>
      match st.infraGet with
      | some e =>
        ⟨eff ++ [.setDegraded "InfraConfigError"],
          .error ("failed to get infrastructure config: " ++ e), st, none⟩
      | none =>
        match st.netGet with
        | some e =>
          ⟨eff ++ [.setDegraded "NetworkConfigError"],
            .error ("failed to get network config: " ++ e), st, none⟩
        | none =>
          match st.clusterCfgGet with
          | some e =>
            ⟨eff ++ [.setDegraded "ClusterConfigError"],
              .error ("failed to get cluster config configmap: " ++ e), st, none⟩
          | none =>
            match st.syncStatusErr with
            | some e =>
              ⟨eff ++ [.setDegraded "StatusError"],
                .error ("failed to sync proxy status: " ++ e), st, none⟩
            | none => finishSync st eff trustBundle

/-- The additional-trust-bundle-namespace branch of Reconcile: fetch the
named ConfigMap (not-found is a benign no-op, other fetch errors are
returned), skip unless its name matches the proxy trustedCA reference
(any admission failure is a benign no-op), validate the trust bundle
(TrustBundleValidationFailure) and merge (EnsureProxyConfigFailure) - the
merged result is then discarded, exactly as in the source, in favour of
re-fetching the proxy and re-running the shared validate/resolve step -
then fall through to the trust-bundle sync. -/
def reconcileCMPath (env : Env) (st : Store) (req : Request) : RunResult :=
  match st.cmGet req.ns req.name with
  | .notFound => ⟨[], .ok (), st, none⟩
  | .fetchError e => ⟨[], .error ("failed to get configmap: " ++ e), st, none⟩
  | .found trustBundleCM =>
    match configMapIsProxyTrustedCA st trustBundleCM.name with
    | .error _ => ⟨[], .ok (), st, none⟩
    | .ok _ =>
      match validateTrustedCA env st trustBundleCM.name with
      | .error e =>
        ⟨[.setDegraded "TrustBundleValidationFailure"],
          .error ("failed to validate additional trust bundle configmap: " ++ e),
          st, none⟩
      | .ok pd =>
        match mergeTrustBundlesToConfigMap env pd.1 pd.2 with
        | .error e =>
          ⟨[.setDegraded "EnsureProxyConfigFailure"],
            .error ("failed to merge trustedCA and system bundles: " ++ e),
            st, none⟩
        | .ok _ =>
          match st.proxyGet with
          | .notFound => ⟨[], .ok (), st, none⟩
          | .fetchError e => ⟨[], .error ("failed to get proxy: " ++ e), st, none⟩
          | .found p =>
            match validateAndResolve env st p with
            | (eff, .error e) => ⟨eff, .error e, st, none⟩
            | (eff, .ok trustBundle) => finishSync st eff trustBundle

/-- Reconcile dispatches on the request identity: the singleton proxy
identity goes to the proxy branch, a request in the additional-trust-bundle
namespace goes to the configmap branch, and any other identity is ignored. -/
def Reconcile (env : Env) (st : Store) (req : Request) : RunResult :=
  if req = proxyRequest then
    reconcileProxyPath env st
  else if req.ns = ADDL_TRUST_BUNDLE_CONFIGMAP_NS then
    reconcileCMPath env st req
  else
    ⟨[], .ok (), st, none⟩

/-! ## Concrete inputs used by the witnesses -/

/-- A permissive environment: every blob is valid PEM and every proxy spec
passes validation. -/
def envW : Env := ⟨fun _ => true, fun _ => .ok ()⟩

/-- A proxy spec with no proxy URL fields and trustedCA naming "custom-ca". -/
def proxyW : ProxySpec := ⟨"", "", "", [], "custom-ca"⟩

/-- The source ConfigMap "custom-ca" holding the additional bundle "AAA". -/
def sourceCMW : ConfigMap :=
  ⟨"custom-ca", ADDL_TRUST_BUNDLE_CONFIGMAP_NS,
    [(TRUSTED_CA_BUNDLE_CONFIGMAP_KEY, "AAA")]⟩

/-- A store holding the proxy and the source ConfigMap, with no derived
artifact yet, all side reads succeeding, and the system bundle "SYS". -/
def storeW : Store where
  proxyGet := .found proxyW
  cmGet := fun n m =>
    if n = ADDL_TRUST_BUNDLE_CONFIGMAP_NS && m = "custom-ca" then .found sourceCMW
    else .notFound
  derivedGet := .notFound
  infraGet := none
  netGet := none
  clusterCfgGet := none
  systemBundleRead := .ok "SYS"
  createErr := none
  updateErr := none
  syncStatusErr := none

/-- The derived bundle both trigger paths produce from `storeW`. -/
def mergedW : ConfigMap :=
  ⟨TRUSTED_CA_BUNDLE_CONFIGMAP, TRUSTED_CA_BUNDLE_CONFIGMAP_NS,
    [(TRUSTED_CA_BUNDLE_CONFIGMAP_KEY, "AAASYS")]⟩

/-- `storeW` with the proxy object deleted. -/
def storeNFW : Store := { storeW with proxyGet := .notFound }

/-- `storeW` with the proxy fetch failing with a non-not-found error. -/
def storeFEW : Store := { storeW with proxyGet := .fetchError "boom" }

/-- `storeW` with every ConfigMap fetch failing with a non-not-found error. -/
def storeCEW : Store := { storeW with cmGet := fun _ _ => .fetchError "boom" }

/-- A request in the additional-trust-bundle namespace naming a ConfigMap
absent from `storeW`. -/
def reqMissW : Request := ⟨"openshift-config", "nope"⟩

/-- A source ConfigMap whose name does not match `proxyW`'s trustedCA. -/
def otherCMW : ConfigMap :=
  ⟨"other-ca", ADDL_TRUST_BUNDLE_CONFIGMAP_NS, [(TRUSTED_CA_BUNDLE_CONFIGMAP_KEY, "BBB")]⟩

/-- `storeW` serving only the mismatching ConfigMap `otherCMW`. -/
def storeMMW : Store :=
  { storeW with cmGet := fun _ m => if m = "other-ca" then .found otherCMW else .notFound }

/-- An environment whose proxy-spec validator rejects every spec. -/
def envBadW : Env := ⟨fun _ => true, fun _ => .error "bad"⟩

/-- A proxy spec with a malformed httpProxy and no trustedCA. -/
def proxyBadW : ProxySpec := ⟨"not-a-url", "", "", [], ""⟩

/-- `storeW` holding the malformed proxy spec. -/
def storeBadW : Store := { storeW with proxyGet := .found proxyBadW }

/-- The configmap-trigger request for the referenced source ConfigMap. -/
def reqCMW : Request := ⟨"openshift-config", "custom-ca"⟩

/-- The configmap-trigger request for the mismatching ConfigMap. -/
def reqOtherW : Request := ⟨"openshift-config", "other-ca"⟩

/-! ## Helper lemmas -/

theorem configMapsEqual_iff (key : String) (a b : ConfigMap) :
    configMapsEqual key a b = true ↔ a.getData key = b.getData key := by
  simp [configMapsEqual]

/-- A non-empty string has positive length. -/
theorem length_pos_of_ne_empty (s : String) (h : s ≠ "") : 0 < s.length := by
  rcases s with ⟨data⟩
  cases data with
  | nil => simp at h
  | cons c cs => simp [String.length]

/-- Every effect of syncTrustedCABundle is a Create or an Update of the
candidate. -/
theorem mem_sync_effects (st : Store) (tb : ConfigMap) (x : Effect)
    (hx : x ∈ (syncTrustedCABundle st tb).effects) :
    x = .createCM tb ∨ x = .updateCM tb := by
  unfold syncTrustedCABundle at hx
  split at hx
  · simp at hx
  · split at hx
    · simp at hx; simp [hx]
    · split at hx
      · simp at hx; simp [hx]
      · split at hx <;> (simp at hx; rcases hx with h | h <;> simp [h])
  · split at hx
    · simp at hx
    · split at hx <;> (simp at hx; simp [hx])

/-- Every effect of finishSync is an accumulated branch effect, the sync
hand-off, a Create or Update of the candidate, or a final health write. -/
theorem mem_finishSync (st : Store) (eff : List Effect) (tb : ConfigMap) (x : Effect)
    (hx : x ∈ (finishSync st eff tb).effects) :
    x ∈ eff ∨ x = .syncWith tb ∨ x = .createCM tb ∨ x = .updateCM tb ∨
      x = .setDegraded "TrustBundleSyncFailure" ∨ x = .setNotDegraded := by
  unfold finishSync at hx
  split at hx <;>
  · rename_i es r st2 heq
    simp only [List.mem_append, List.mem_singleton] at hx
    rcases hx with ((h | h) | h) | h
    · exact Or.inl h
    · simp [h]
    · have hes : es = (syncTrustedCABundle st tb).effects := by rw [heq]
      rcases mem_sync_effects st tb x (hes ▸ h) with h2 | h2 <;> simp [h2]
    · simp [h]

/-- Every effect of resolveTrustBundle is the generateSystemTrustBundle call
marker or a degraded-health write. -/
theorem mem_resolve (env : Env) (st : Store) (p : ProxySpec) (x : Effect)
    (hx : x ∈ (resolveTrustBundle env st p).1) :
    x = .genSystemCall ∨ ∃ r, x = .setDegraded r := by
  unfold resolveTrustBundle at hx
  split at hx
  · split at hx <;> (simp at hx; try rcases hx with h | h) <;> simp_all
  · split at hx
    · simp at hx; simp [hx]
    · split at hx <;> simp_all

/-- Every effect of validateAndResolve is the validator call marker, an
effect of resolveTrustBundle, or the InvalidProxyConfig health write. -/
theorem mem_validateAndResolve (env : Env) (st : Store) (p : ProxySpec) (x : Effect)
    (hx : x ∈ (validateAndResolve env st p).1) :
    x = .validateCall ∨ x ∈ (resolveTrustBundle env st p).1 ∨
      x = .setDegraded "InvalidProxyConfig" := by
  unfold validateAndResolve at hx
  split at hx
  · split at hx
    · simp at hx; rcases hx with h | h <;> simp [h]
    · split at hx
      rename_i es r heq
      simp at hx
      rcases hx with h | h
      · simp [h]
      · exact Or.inr (Or.inl (by rw [heq]; exact h))
  · exact Or.inr (Or.inl hx)

/-- finishSync always hands exactly its candidate to the sync stage. -/
theorem finishSync_synced (st : Store) (eff : List Effect) (tb : ConfigMap) :
    (finishSync st eff tb).synced = some tb := by
  unfold finishSync; split <;> rfl

/-- Dispatch: the proxy-identity request goes to the proxy branch. -/
theorem reconcile_proxyReq (env : Env) (st : Store) :
    Reconcile env st proxyRequest = reconcileProxyPath env st := by
  unfold Reconcile; simp

/-- Dispatch: a request in the additional-trust-bundle namespace goes to the
configmap branch. -/
theorem reconcile_cmReq (env : Env) (st : Store) (req : Request)
    (h : req.ns = ADDL_TRUST_BUNDLE_CONFIGMAP_NS) :
    Reconcile env st req = reconcileCMPath env st req := by
  have hne : req ≠ proxyRequest := by
    intro he
    rw [he] at h
    exact absurd h (by decide)
  unfold Reconcile
  rw [if_neg hne, if_pos h]

/-- If the proxy branch reached the sync stage with candidate tb, then the
proxy was fetched and the shared validate-and-resolve step produced tb. -/
theorem synced_proxyPath (env : Env) (st : Store) (tb : ConfigMap)
    (h : (reconcileProxyPath env st).synced = some tb) :
    ∃ p eff, st.proxyGet = .found p ∧ validateAndResolve env st p = (eff, .ok tb) := by
  unfold reconcileProxyPath at h
  split at h
  · simp at h
  · simp at h
  · rename_i p heq
    split at h
    · simp at h
    · rename_i eff tb2 heq2
      split at h
      · simp at h
      · split at h
        · simp at h
        · split at h
          · simp at h
          · split at h
            · simp at h
            · rw [finishSync_synced] at h
              exact ⟨p, eff, heq, by rw [heq2, Option.some_inj.mp h]⟩

/-- If the configmap branch reached the sync stage with candidate tb, then
the proxy was fetched and the shared validate-and-resolve step produced tb. -/
theorem synced_cmPath (env : Env) (st : Store) (req : Request) (tb : ConfigMap)
    (h : (reconcileCMPath env st req).synced = some tb) :
    ∃ p eff, st.proxyGet = .found p ∧ validateAndResolve env st p = (eff, .ok tb) := by
  unfold reconcileCMPath at h
  split at h
  · simp at h
  · simp at h
  · rename_i cm heq0
    split at h
    · simp at h
    · split at h
      · simp at h
      · split at h
        · simp at h
        · split at h
          · simp at h
          · simp at h
          · rename_i p heq
            split at h
            · simp at h
            · rename_i eff tb2 heq2
              rw [finishSync_synced] at h
              exact ⟨p, eff, heq, by rw [heq2, Option.some_inj.mp h]⟩

/-- When httpProxy, httpsProxy and noProxy are all unset, the validate flag
is cleared and validateAndResolve is exactly resolveTrustBundle. -/
theorem validateAndResolve_skip (env : Env) (st : Store) (p : ProxySpec)
    (h1 : isSpecHTTPProxySet p = false) (h2 : isSpecHTTPSProxySet p = false)
    (h3 : isSpecNoProxySet p = false) :
    validateAndResolve env st p = resolveTrustBundle env st p := by
  unfold validateAndResolve
  simp [h1, h2, h3]

/-- When trustedCA is set, resolveTrustBundle never calls
generateSystemTrustBundle. -/
theorem resolve_no_genSystem (env : Env) (st : Store) (p : ProxySpec)
    (ht : isSpecTrustedCASet p = true) :
    Effect.genSystemCall ∉ (resolveTrustBundle env st p).1 := by
  intro hx
  unfold resolveTrustBundle at hx
  simp only [ht] at hx
  simp at hx
  split at hx
  · simp at hx
  · split at hx <;> simp at hx

/-- Every effect of the proxy branch arises after a successful proxy fetch
and is an effect of validateAndResolve or one of the listed write effects. -/
theorem mem_proxyPath (env : Env) (st : Store) (x : Effect)
    (hx : x ∈ (reconcileProxyPath env st).effects) :
    ∃ p, st.proxyGet = .found p ∧
      (x ∈ (validateAndResolve env st p).1 ∨ (∃ r, x = .setDegraded r) ∨
        x = .setNotDegraded ∨ (∃ tb, x = .syncWith tb) ∨
        (∃ tb, x = .createCM tb) ∨ (∃ tb, x = .updateCM tb)) := by
  unfold reconcileProxyPath at hx
  split at hx
  · simp at hx
  · simp at hx
  · rename_i p heq
    refine ⟨p, heq, ?_⟩
    split at hx
    · rename_i eff e heq2
      exact Or.inl (by rw [heq2]; exact hx)
    · rename_i eff tb heq2
      have heff : ∀ y, y ∈ eff → y ∈ (validateAndResolve env st p).1 := by
        intro y hy; rw [heq2]; exact hy
      split at hx
      · simp only [List.mem_append, List.mem_singleton] at hx
        rcases hx with h | h
        · exact Or.inl (heff x h)
        · exact Or.inr (Or.inl ⟨_, h⟩)
      · split at hx
        · simp only [List.mem_append, List.mem_singleton] at hx
          rcases hx with h | h
          · exact Or.inl (heff x h)
          · exact Or.inr (Or.inl ⟨_, h⟩)
        · split at hx
          · simp only [List.mem_append, List.mem_singleton] at hx
            rcases hx with h | h
            · exact Or.inl (heff x h)
            · exact Or.inr (Or.inl ⟨_, h⟩)
          · split at hx
            · simp only [List.mem_append, List.mem_singleton] at hx
              rcases hx with h | h
              · exact Or.inl (heff x h)
              · exact Or.inr (Or.inl ⟨_, h⟩)
            · rcases mem_finishSync st eff tb x hx with h | h | h | h | h | h
              · exact Or.inl (heff x h)
              · exact .inr (.inr (.inr (.inl ⟨tb, h⟩)))
              · exact .inr (.inr (.inr (.inr (.inl ⟨tb, h⟩))))
              · exact .inr (.inr (.inr (.inr (.inr ⟨tb, h⟩))))
              · exact .inr (.inl ⟨_, h⟩)
              · exact .inr (.inr (.inl h))

/-- Every effect of the configmap branch is a pre-step degraded write, or
arises after a successful proxy fetch from validateAndResolve or one of the
listed write effects. -/
theorem mem_cmPath (env : Env) (st : Store) (req : Request) (x : Effect)
    (hx : x ∈ (reconcileCMPath env st req).effects) :
    (∃ r, x = .setDegraded r) ∨
    ∃ p, st.proxyGet = .found p ∧
      (x ∈ (validateAndResolve env st p).1 ∨ (∃ r, x = .setDegraded r) ∨
        x = .setNotDegraded ∨ (∃ tb, x = .syncWith tb) ∨
        (∃ tb, x = .createCM tb) ∨ (∃ tb, x = .updateCM tb)) := by
  unfold reconcileCMPath at hx
  split at hx
  · simp at hx
  · simp at hx
  · rename_i cm heq0
    split at hx
    · simp at hx
    · split at hx
      · simp at hx; exact Or.inl ⟨_, hx⟩
      · split at hx
        · simp at hx; exact Or.inl ⟨_, hx⟩
        · split at hx
          · simp at hx
          · simp at hx
          · rename_i p heq
            refine Or.inr ⟨p, heq, ?_⟩
            split at hx
            · rename_i eff e heq2
              exact Or.inl (by rw [heq2]; exact hx)
            · rename_i eff tb heq2
              have heff : ∀ y, y ∈ eff → y ∈ (validateAndResolve env st p).1 := by
                intro y hy; rw [heq2]; exact hy
              rcases mem_finishSync st eff tb x hx with h | h | h | h | h | h
              · exact Or.inl (heff x h)
              · exact .inr (.inr (.inr (.inl ⟨tb, h⟩)))
              · exact .inr (.inr (.inr (.inr (.inl ⟨tb, h⟩))))
              · exact .inr (.inr (.inr (.inr (.inr ⟨tb, h⟩))))
              · exact .inr (.inl ⟨_, h⟩)
              · exact .inr (.inr (.inl h))

/-- Every effect of a Reconcile invocation is an effect of validateAndResolve
after a successful proxy fetch, or one of the listed write effects. -/
theorem mem_reconcile (env : Env) (st : Store) (req : Request) (x : Effect)
    (hx : x ∈ (Reconcile env st req).effects) :
    (∃ p, st.proxyGet = .found p ∧ x ∈ (validateAndResolve env st p).1) ∨
    (∃ r, x = .setDegraded r) ∨ x = .setNotDegraded ∨
    (∃ tb, x = .syncWith tb) ∨ (∃ tb, x = .createCM tb) ∨ (∃ tb, x = .updateCM tb) := by
  unfold Reconcile at hx
  split at hx
  · rcases mem_proxyPath env st x hx with ⟨p, hp, hd⟩
    rcases hd with h | h | h | h | h | h
    · exact .inl ⟨p, hp, h⟩
    · exact .inr (.inl h)
    · exact .inr (.inr (.inl h))
    · exact .inr (.inr (.inr (.inl h)))
    · exact .inr (.inr (.inr (.inr (.inl h))))
    · exact .inr (.inr (.inr (.inr (.inr h))))
  · split at hx
    · rcases mem_cmPath env st req x hx with h | ⟨p, hp, hd⟩
      · exact .inr (.inl h)
      · rcases hd with h | h | h | h | h | h
        · exact .inl ⟨p, hp, h⟩
        · exact .inr (.inl h)
        · exact .inr (.inr (.inl h))
        · exact .inr (.inr (.inr (.inl h)))
        · exact .inr (.inr (.inr (.inr (.inl h))))
        · exact .inr (.inr (.inr (.inr (.inr h))))
    · simp at hx

/-- When the admission check succeeds, the proxy was fetched and its
trustedCA name equals the checked ConfigMap name. -/
theorem admission_inv (st : Store) (nm : String)
    (h : configMapIsProxyTrustedCA st nm = .ok ()) :
    ∃ p, st.proxyGet = .found p ∧ p.trustedCAName = nm := by
  unfold configMapIsProxyTrustedCA at h
  split at h
  · simp at h
  · simp at h
  · rename_i p heq
    split at h
    · simp at h
    · rename_i hcond
      refine ⟨p, heq, ?_⟩
      simpa using hcond

/-! ## Claims -/

/-- Claim C1 is false of the code: on the not-found path, after creating the
candidate, syncTrustedCABundle falls through (no return) to the data
comparison against the still-zero-valued `currentCfgMap`, which differs from
any candidate with non-empty data at the well-known key, so the invocation
performs an Update write in addition to the Create.  Evaluated here at a
store with no derived artifact and the concrete candidate `mergedW`. -/
theorem syncTrustedCABundle_create_also_updates :
    (syncTrustedCABundle storeW mergedW).effects =
      [Effect.createCM mergedW, Effect.updateCM mergedW] ∧
    (syncTrustedCABundle storeW mergedW).result = .ok () := by
  constructor <;> rfl

/-- When the derived artifact is present and its value at the well-known key
matches the candidate, syncTrustedCABundle is a pure no-op. -/
theorem sync_found_equal (st : Store) (tb cur : ConfigMap)
    (hd : st.derivedGet = .found cur)
    (he : cur.getData TRUSTED_CA_BUNDLE_CONFIGMAP_KEY
      = tb.getData TRUSTED_CA_BUNDLE_CONFIGMAP_KEY) :
    syncTrustedCABundle st tb = ⟨[], .ok (), st⟩ := by
  unfold syncTrustedCABundle
  rw [hd]
  simp [configMapsEqual, he]

/-- After a successful syncTrustedCABundle, the resulting store holds a
derived artifact whose value at the well-known key equals the candidate's. -/
theorem sync_ok_store (st : Store) (tb : ConfigMap)
    (h : (syncTrustedCABundle st tb).result = .ok ()) :
    ∃ cur, (syncTrustedCABundle st tb).store.derivedGet = .found cur ∧
      cur.getData TRUSTED_CA_BUNDLE_CONFIGMAP_KEY
        = tb.getData TRUSTED_CA_BUNDLE_CONFIGMAP_KEY := by
  unfold syncTrustedCABundle at h ⊢
  cases hd : st.derivedGet with
  | fetchError e => simp [hd] at h
  | notFound =>
    cases hc : st.createErr with
    | some e => simp [hd, hc] at h
    | none =>
      by_cases he : configMapsEqual TRUSTED_CA_BUNDLE_CONFIGMAP_KEY ConfigMap.zero tb
      · exact ⟨tb, by simp [hd, hc, he], rfl⟩
      · cases hu : st.updateErr with
        | some e => simp [hd, hc, he, hu] at h
        | none => exact ⟨tb, by simp [hd, hc, he, hu], rfl⟩
  | found cur =>
    by_cases he : configMapsEqual TRUSTED_CA_BUNDLE_CONFIGMAP_KEY cur tb
    · exact ⟨cur, by simp [hd, he], (configMapsEqual_iff _ _ _).mp he⟩
    · cases hu : st.updateErr with
      | some e => simp [hd, he, hu] at h
      | none => exact ⟨tb, by simp [hd, he, hu], rfl⟩

/-- Claim C2: Sync is idempotent.  Whenever syncTrustedCABundle succeeds,
the resulting store holds a current artifact whose value at the well-known
data key equals the candidate's, and running syncTrustedCABundle again on
the resulting store with the same candidate performs no external write
(its effect list is empty) and succeeds. -/
theorem syncTrustedCABundle_idempotent (st : Store) (tb : ConfigMap)
    (h : (syncTrustedCABundle st tb).result = .ok ()) :
    ∃ cur, (syncTrustedCABundle st tb).store.derivedGet = .found cur ∧
      cur.getData TRUSTED_CA_BUNDLE_CONFIGMAP_KEY
        = tb.getData TRUSTED_CA_BUNDLE_CONFIGMAP_KEY ∧
      (syncTrustedCABundle (syncTrustedCABundle st tb).store tb).effects = [] ∧
      (syncTrustedCABundle (syncTrustedCABundle st tb).store tb).result = .ok () := by
  obtain ⟨cur, hcur, hdata⟩ := sync_ok_store st tb h
  refine ⟨cur, hcur, hdata, ?_, ?_⟩ <;>
    rw [sync_found_equal _ tb cur hcur hdata]

/-- Witness for C2: at the concrete store `storeW` (no derived artifact) and
candidate `mergedW`, the first sync succeeds and the second sync against the
resulting store finds matching data and performs no write. -/
theorem syncTrustedCABundle_idempotent_witness :
    (syncTrustedCABundle storeW mergedW).result = .ok () ∧
    ∃ cur, (syncTrustedCABundle storeW mergedW).store.derivedGet = .found cur ∧
      cur.getData TRUSTED_CA_BUNDLE_CONFIGMAP_KEY
        = mergedW.getData TRUSTED_CA_BUNDLE_CONFIGMAP_KEY ∧
      (syncTrustedCABundle (syncTrustedCABundle storeW mergedW).store mergedW).effects = [] ∧
      (syncTrustedCABundle (syncTrustedCABundle storeW mergedW).store mergedW).result
        = .ok () :=
  ⟨rfl, syncTrustedCABundle_idempotent storeW mergedW rfl⟩

/-- Claim C4: for non-empty inputs whose concatenation validates as PEM,
mergeTrustBundlesToConfigMap stores at the well-known data key exactly the
bytes of the additional bundle immediately followed by the bytes of the
system bundle, unmodified. -/
theorem mergeTrustBundles_concat (env : Env) (additionalData systemData : String)
    (ha : additionalData.length ≠ 0) (hb : systemData.length ≠ 0)
    (hpem : env.pemValid (additionalData ++ systemData) = true) :
    ∃ cm, mergeTrustBundlesToConfigMap env additionalData systemData = .ok cm ∧
      cm.getData TRUSTED_CA_BUNDLE_CONFIGMAP_KEY = additionalData ++ systemData := by
  refine ⟨⟨TRUSTED_CA_BUNDLE_CONFIGMAP, TRUSTED_CA_BUNDLE_CONFIGMAP_NS,
    [(TRUSTED_CA_BUNDLE_CONFIGMAP_KEY, additionalData ++ systemData)]⟩, ?_, ?_⟩
  · unfold mergeTrustBundlesToConfigMap
    simp [ha, hb, ConfigMap.getData, List.lookup, hpem]
  · simp [ConfigMap.getData, List.lookup]

/-- Witness for C4: merging "AAA" with "SYS" under the permissive validator
yields a ConfigMap holding exactly "AAASYS". -/
theorem mergeTrustBundles_concat_witness :
    ∃ cm, mergeTrustBundlesToConfigMap envW "AAA" "SYS" = .ok cm ∧
      cm.getData TRUSTED_CA_BUNDLE_CONFIGMAP_KEY = "AAA" ++ "SYS" :=
  mergeTrustBundles_concat envW "AAA" "SYS" (by decide) (by decide) rfl

/-- Claim C5: mergeTrustBundlesToConfigMap rejects empty input.  With an
empty additional bundle it fails with the descriptive additional-empty
message, and with an empty system bundle it fails with a descriptive error
(the additional-empty message when the additional bundle is also empty, the
system-empty message otherwise); in every case no ConfigMap is produced. -/
theorem mergeTrustBundles_rejects_empty (env : Env) (additionalData systemData : String) :
    mergeTrustBundlesToConfigMap env "" systemData =
      .error "failed to merge ca bundles, additional trust bundle is empty" ∧
    ∃ m, mergeTrustBundlesToConfigMap env additionalData "" = .error m ∧ m ≠ "" := by
  constructor
  · simp [mergeTrustBundlesToConfigMap]
  · by_cases ha : additionalData.length = 0
    · exact ⟨"failed to merge ca bundles, additional trust bundle is empty",
        by simp [mergeTrustBundlesToConfigMap, ha], by decide⟩
    · exact ⟨"failed to merge ca bundles, system trust bundle is empty",
        by simp [mergeTrustBundlesToConfigMap, ha], by decide⟩

/-- Claim C3: dual-trigger convergence.  Against one fixed store state, if a
Reconcile invocation triggered by the singleton proxy identity hands tb1 to
the sync stage and a Reconcile invocation triggered by an identity in the
additional-trust-bundle namespace hands tb2 to the sync stage, then tb1 and
tb2 are identical (in particular their derived trust-bundle data is
byte-identical). -/
theorem reconcile_dual_trigger_convergence (env : Env) (st : Store) (req : Request)
    (tb1 tb2 : ConfigMap)
    (hns : req.ns = ADDL_TRUST_BUNDLE_CONFIGMAP_NS)
    (h1 : (Reconcile env st proxyRequest).synced = some tb1)
    (h2 : (Reconcile env st req).synced = some tb2) :
    tb1 = tb2 := by
  rw [reconcile_proxyReq] at h1
  rw [reconcile_cmReq env st req hns] at h2
  obtain ⟨p1, e1, hp1, hv1⟩ := synced_proxyPath env st tb1 h1
  obtain ⟨p2, e2, hp2, hv2⟩ := synced_cmPath env st req tb2 h2
  rw [hp1] at hp2
  injection hp2 with hpp
  subst hpp
  rw [hv1] at hv2
  injection hv2 with he hr
  injection hr

/-- Witness for C3: on the concrete store `storeW`, the proxy-identity
trigger and the source-ConfigMap trigger both hand the merged bundle
`mergedW` to the sync stage, and the theorem yields their equality. -/
theorem reconcile_dual_trigger_convergence_witness :
    reqCMW.ns = ADDL_TRUST_BUNDLE_CONFIGMAP_NS ∧
    (Reconcile envW storeW proxyRequest).synced = some mergedW ∧
    (Reconcile envW storeW reqCMW).synced = some mergedW ∧
    mergedW = mergedW :=
  ⟨rfl, rfl, rfl,
    reconcile_dual_trigger_convergence envW storeW reqCMW mergedW mergedW rfl rfl rfl⟩

/-- Claim C6: reference-mismatch no-op.  On the configmap path, when the
fetched ConfigMap's (non-empty) name differs from the proxy's trustedCA name
or the trustedCA reference is unset, Reconcile returns success with no
effects at all - no health-status write and no external store write - and
the store is unchanged. -/
theorem reconcile_reference_mismatch_noop (env : Env) (st : Store) (req : Request)
    (cm : ConfigMap) (p : ProxySpec)
    (hns : req.ns = ADDL_TRUST_BUNDLE_CONFIGMAP_NS)
    (hcm : st.cmGet req.ns req.name = .found cm)
    (hp : st.proxyGet = .found p)
    (hname : cm.name ≠ "")
    (hmm : cm.name ≠ p.trustedCAName ∨ p.trustedCAName = "") :
    Reconcile env st req = ⟨[], .ok (), st, none⟩ := by
  rw [reconcile_cmReq env st req hns]
  have hne : p.trustedCAName ≠ cm.name := by
    rcases hmm with h | h
    · exact fun hh => h hh.symm
    · rw [h]; exact fun hh => hname hh.symm
  have hadm : configMapIsProxyTrustedCA st cm.name =
      .error "configmap name does not match proxy trustedCA name" := by
    unfold configMapIsProxyTrustedCA
    rw [hp]
    simp [hne]
  unfold reconcileCMPath
  simp only [hcm, hadm]

/-- Witness for C6: a trigger naming "other-ca" while the proxy references
"custom-ca" produces no error, no effects and no store change. -/
theorem reconcile_reference_mismatch_noop_witness :
    storeMMW.cmGet reqOtherW.ns reqOtherW.name = .found otherCMW ∧
    storeMMW.proxyGet = .found proxyW ∧
    otherCMW.name ≠ proxyW.trustedCAName ∧
    Reconcile envW storeMMW reqOtherW = ⟨[], .ok (), storeMMW, none⟩ :=
  ⟨rfl, rfl, by decide,
    reconcile_reference_mismatch_noop envW storeMMW reqOtherW otherCMW proxyW rfl rfl rfl
      (by decide) (Or.inl (by decide))⟩

/-- Claim C7: not-found is benign terminal.  A not-found on the input fetch
of either trigger path makes Reconcile return success with no effects (no
health write, no store write); any other fetch error on those fetches is
returned as an error from Reconcile, still with no effects. -/
theorem reconcile_notfound_benign (env : Env) (st : Store) (req : Request) :
    (st.proxyGet = .notFound →
      Reconcile env st proxyRequest = ⟨[], .ok (), st, none⟩) ∧
    (∀ e, st.proxyGet = .fetchError e →
      Reconcile env st proxyRequest =
        ⟨[], .error ("failed to get proxy: " ++ e), st, none⟩) ∧
    (req.ns = ADDL_TRUST_BUNDLE_CONFIGMAP_NS →
      st.cmGet req.ns req.name = .notFound →
      Reconcile env st req = ⟨[], .ok (), st, none⟩) ∧
    (∀ e, req.ns = ADDL_TRUST_BUNDLE_CONFIGMAP_NS →
      st.cmGet req.ns req.name = .fetchError e →
      Reconcile env st req = ⟨[], .error ("failed to get configmap: " ++ e), st, none⟩) := by
  refine ⟨?_, ?_, ?_, ?_⟩
  · intro hpn
    rw [reconcile_proxyReq]
    unfold reconcileProxyPath
    simp only [hpn]
  · intro e hpe
    rw [reconcile_proxyReq]
    unfold reconcileProxyPath
    simp only [hpe]
  · intro hns hcn
    rw [reconcile_cmReq env st req hns]
    unfold reconcileCMPath
    simp only [hcn]
  · intro e hns hce
    rw [reconcile_cmReq env st req hns]
    unfold reconcileCMPath
    simp only [hce]

/-- Witness for C7: concrete runs of all four cases - proxy deleted, proxy
fetch error, source ConfigMap absent, ConfigMap fetch error. -/
theorem reconcile_notfound_benign_witness :
    Reconcile envW storeNFW proxyRequest = ⟨[], .ok (), storeNFW, none⟩ ∧
    Reconcile envW storeFEW proxyRequest =
      ⟨[], .error ("failed to get proxy: " ++ "boom"), storeFEW, none⟩ ∧
    Reconcile envW storeW reqMissW = ⟨[], .ok (), storeW, none⟩ ∧
    Reconcile envW storeCEW reqMissW =
      ⟨[], .error ("failed to get configmap: " ++ "boom"), storeCEW, none⟩ :=
  ⟨(reconcile_notfound_benign envW storeNFW reqMissW).1 rfl,
    (reconcile_notfound_benign envW storeFEW reqMissW).2.1 "boom" rfl,
    (reconcile_notfound_benign envW storeW reqMissW).2.2.1 rfl rfl,
    (reconcile_notfound_benign envW storeCEW reqMissW).2.2.2 "boom" rfl rfl⟩

/-- Claim C8: validation skip.  When httpProxy, httpsProxy and noProxy of
the stored proxy spec are all empty, no Reconcile invocation - on either
trigger path, whatever readinessEndpoints or the validator function - ever
invokes the proxy spec validator. -/
theorem reconcile_validation_skip (env : Env) (st : Store) (req : Request) (p : ProxySpec)
    (hp : st.proxyGet = .found p)
    (h1 : isSpecHTTPProxySet p = false)
    (h2 : isSpecHTTPSProxySet p = false)
    (h3 : isSpecNoProxySet p = false) :
    Effect.validateCall ∉ (Reconcile env st req).effects := by
  intro hx
  rcases mem_reconcile env st req _ hx with
    ⟨p2, hp2, hmem⟩ | ⟨r, h⟩ | h | ⟨tb, h⟩ | ⟨tb, h⟩ | ⟨tb, h⟩
  · rw [hp] at hp2
    injection hp2 with hpp
    subst hpp
    rw [validateAndResolve_skip env st p h1 h2 h3] at hmem
    rcases mem_resolve env st p _ hmem with h | ⟨r, h⟩ <;> simp at h
  all_goals simp at h

/-- Witness for C8: `proxyW` has empty httpProxy, httpsProxy and noProxy,
and the proxy-identity invocation on `storeW` never calls the validator. -/
theorem reconcile_validation_skip_witness :
    storeW.proxyGet = .found proxyW ∧
    isSpecHTTPProxySet proxyW = false ∧
    isSpecHTTPSProxySet proxyW = false ∧
    isSpecNoProxySet proxyW = false ∧
    Effect.validateCall ∉ (Reconcile envW storeW proxyRequest).effects :=
  ⟨rfl, rfl, rfl, rfl,
    reconcile_validation_skip envW storeW proxyRequest proxyW rfl rfl rfl rfl⟩

/-- Claim C9: on the proxy-identity path, a proxy spec that is subject to
validation (some proxy field set) and fails it produces exactly the
validator call and one degraded-health write with reason InvalidProxyConfig,
returns an error, and never reaches the sync stage, leaving the store - and
hence the derived artifact - unchanged. -/
theorem reconcile_invalid_proxy_degraded (env : Env) (st : Store) (p : ProxySpec) (e : String)
    (hp : st.proxyGet = .found p)
    (hset : (isSpecHTTPProxySet p || isSpecHTTPSProxySet p || isSpecNoProxySet p) = true)
    (hv : env.validateProxyCfg p = .error e) :
    Reconcile env st proxyRequest =
      ⟨[.validateCall, .setDegraded "InvalidProxyConfig"],
        .error ("failed to validate proxy: " ++ e), st, none⟩ := by
  rw [reconcile_proxyReq]
  have hvr : validateAndResolve env st p =
      ([.validateCall, .setDegraded "InvalidProxyConfig"],
        .error ("failed to validate proxy: " ++ e)) := by
    unfold validateAndResolve
    rw [if_pos hset]
    simp only [hv]
  unfold reconcileProxyPath
  simp only [hp, hvr]

/-- Witness for C9: a proxy with httpProxy "not-a-url" under a rejecting
validator reports degraded once with reason InvalidProxyConfig, errors, and
leaves the store untouched. -/
theorem reconcile_invalid_proxy_degraded_witness :
    storeBadW.proxyGet = .found proxyBadW ∧
    (isSpecHTTPProxySet proxyBadW || isSpecHTTPSProxySet proxyBadW ||
      isSpecNoProxySet proxyBadW) = true ∧
    envBadW.validateProxyCfg proxyBadW = .error "bad" ∧
    Reconcile envBadW storeBadW proxyRequest =
      ⟨[.validateCall, .setDegraded "InvalidProxyConfig"],
        .error ("failed to validate proxy: " ++ "bad"), storeBadW, none⟩ :=
  ⟨rfl, by decide, rfl,
    reconcile_invalid_proxy_degraded envBadW storeBadW proxyBadW "bad" rfl (by decide) rfl⟩

/-- Claim C10: on the configmap path, when the admission check
configMapIsProxyTrustedCA succeeds for the fetched ConfigMap's non-empty
name (the store being one fixed snapshot for the whole invocation), the
re-fetched proxy satisfies isSpecTrustedCASet and the invocation never calls
generateSystemTrustBundle. -/
theorem reconcile_cm_admitted_no_system_bundle (env : Env) (st : Store) (req : Request)
    (cm : ConfigMap)
    (hns : req.ns = ADDL_TRUST_BUNDLE_CONFIGMAP_NS)
    (hcm : st.cmGet req.ns req.name = .found cm)
    (hname : cm.name ≠ "")
    (hadm : configMapIsProxyTrustedCA st cm.name = .ok ()) :
    (∀ p, st.proxyGet = .found p → isSpecTrustedCASet p = true) ∧
    Effect.genSystemCall ∉ (Reconcile env st req).effects := by
  obtain ⟨p, hp, hca⟩ := admission_inv st cm.name hadm
  have htset : isSpecTrustedCASet p = true := by
    unfold isSpecTrustedCASet
    rw [hca]
    simpa using length_pos_of_ne_empty cm.name hname
  constructor
  · intro p2 hp2
    rw [hp] at hp2
    injection hp2 with hpp
    subst hpp
    exact htset
  · intro hx
    rcases mem_reconcile env st req _ hx with
      ⟨p2, hp2, hmem⟩ | ⟨r, h⟩ | h | ⟨tb, h⟩ | ⟨tb, h⟩ | ⟨tb, h⟩
    · rw [hp] at hp2
      injection hp2 with hpp
      subst hpp
      rcases mem_validateAndResolve env st p _ hmem with h | h | h
      · simp at h
      · exact resolve_no_genSystem env st p htset h
      · simp at h
    all_goals simp at h

/-- Witness for C10: on `storeW` the admission check for "custom-ca"
succeeds, the proxy satisfies isSpecTrustedCASet, and the configmap-trigger
invocation never calls generateSystemTrustBundle. -/
theorem reconcile_cm_admitted_no_system_bundle_witness :
    configMapIsProxyTrustedCA storeW sourceCMW.name = .ok () ∧
    (∀ p, storeW.proxyGet = .found p → isSpecTrustedCASet p = true) ∧
    Effect.genSystemCall ∉ (Reconcile envW storeW reqCMW).effects :=
  ⟨rfl,
    (reconcile_cm_admitted_no_system_bundle envW storeW reqCMW sourceCMW rfl rfl
      (by decide) rfl).1,
    (reconcile_cm_admitted_no_system_bundle envW storeW reqCMW sourceCMW rfl rfl
      (by decide) rfl).2⟩

end ProxyConfig
